import Mathlib

/-!
Verification of `taps/data/config.py`: the filter selector (`FilterConfig.get_filter`),
the data-transformer configuration registry (`_DataTransformerConfigRegistry`), and the
argument-surface builder (`DataTransformerChoicesConfig.add_argument_group`).

Python dictionaries are embedded as association lists with CPython `dict` semantics:
`d[k] = v` replaces the value in place when `k` is present and appends otherwise;
`d[k]` returns the first (unique) binding or raises `KeyError`.
-/

namespace Taps

/-- A registered configuration class, identified by a tag standing for the Python type
object (`type[DataTransformerConfig]`). -/
abbrev ConfigType := String

/-- Keyword options forwarded to a configuration constructor (`**options`). -/
abbrev Options := List (String × Int)

/-- The registry's internal mapping `self._configs : dict[str, type[DataTransformerConfig]]`. -/
abbrev Dict := List (String × ConfigType)

/-- CPython `d[k] = v`: replace in place when the key is present, append otherwise. -/
def dictInsert {α : Type} : List (String × α) → String → α → List (String × α)
  | [], k, v => [(k, v)]
  | p :: t, k, v => if p.1 = k then (k, v) :: t else p :: dictInsert t k v

/-- CPython `d.get(k)` / successful `d[k]`: first binding for `k`, if any. -/
def dictGet? {α : Type} : List (String × α) → String → Option α
  | [], _ => none
  | p :: t, k => if p.1 = k then some p.2 else dictGet? t k

/-- `_DataTransformerConfigRegistry.register(name=...)` applied to a class `cls`:
the decorator stores `self._configs[name] = cls` and returns `cls`. -/
def register (d : Dict) (name : String) (cls : ConfigType) : Dict × ConfigType :=
  (dictInsert d name cls, cls)

/-- `_DataTransformerConfigRegistry.get_transformer_config`:
`return self._configs[transformer](**options)`. A missing key raises `KeyError`;
otherwise the registered class is instantiated with the forwarded options, modelled
as the pair of the class tag and the options. -/
def get_transformer_config (d : Dict) (transformer : String) (options : Options) :
    Except String (ConfigType × Options) :=
  match dictGet? d transformer with
  | none => Except.error "KeyError"
  | some cls => Except.ok (cls, options)

/-! ### The registry as heap state, for the aliasing behaviour of `get_registered` -/

/-- The Python heap restricted to `dict[str, type[DataTransformerConfig]]` objects:
an address-indexed store plus the address held by the registry's `self._configs`. -/
structure RegistryHeap where
  heap : Nat → Dict
  registryRef : Nat

/-- `_DataTransformerConfigRegistry.get_registered`: `return self._configs` returns the
internal dictionary object itself — the reference, with no copy made. -/
def get_registered (s : RegistryHeap) : Nat :=
  s.registryRef

/-- A caller-side `d[k] = cls` on the dictionary object at address `r`. -/
def dictSetItemAt (s : RegistryHeap) (r : Nat) (k : String) (cls : ConfigType) : RegistryHeap :=
  RegistryHeap.mk (fun i => if i = r then dictInsert (s.heap r) k cls else s.heap i)
    s.registryRef

/-- `register(name=...)` acting on the heap-level registry: the decorator body
`self._configs[name] = cls` writes through the registry's own reference. -/
def registerAt (s : RegistryHeap) (name : String) (cls : ConfigType) : RegistryHeap :=
  RegistryHeap.mk
    (fun i => if i = s.registryRef then dictInsert (s.heap s.registryRef) name cls else s.heap i)
    s.registryRef

/-- `get_transformer_config` acting on the heap-level registry. -/
def get_transformer_config_at (s : RegistryHeap) (transformer : String) (options : Options) :
    Except String (ConfigType × Options) :=
  get_transformer_config (s.heap s.registryRef) transformer options

/-! ### FilterConfig and the filter selector -/

/-- The three filter objects `taps.data.filter` can hand back, carrying the bounds they
were constructed with. `max_bytes` is a float in the source with default `math.inf`;
it is embedded as `WithTop ℚ`, with `⊤` for `math.inf`. -/
inductive Filter where
  | nullFilter : Filter
  | objectSize (min_bytes : Int) (max_bytes : WithTop ℚ) : Filter
  | pickleSize (min_bytes : Int) (max_bytes : WithTop ℚ) : Filter
deriving DecidableEq

/-- `FilterConfig`: `filter_type` is declared
`Optional[Literal['object-size', 'pickle-size']]`; the field is carried here untyped
(`Option String`) so that the defensive assertion branch can be stated, with the
declared enumeration recovered by `FilterTypeLit` below. -/
structure FilterConfig where
  filter_type : Option String
  filter_min_size : Int
  filter_max_size : WithTop ℚ

/-- The declared `Literal['object-size', 'pickle-size']` enumeration. -/
inductive FilterTypeLit where
  | objectSize : FilterTypeLit
  | pickleSize : FilterTypeLit
deriving DecidableEq

/-- The string value a `Literal` member stands for. -/
def litStr : FilterTypeLit → String
  | FilterTypeLit.objectSize => "object-size"
  | FilterTypeLit.pickleSize => "pickle-size"

/-- `FilterConfig.get_filter`: dispatch on `filter_type`, with the final `else` raising
`AssertionError`. -/
def get_filter (c : FilterConfig) : Except String Filter :=
  match c.filter_type with
  | none => Except.ok Filter.nullFilter
  | some t =>
    if t = "object-size" then
      Except.ok (Filter.objectSize c.filter_min_size c.filter_max_size)
    else if t = "pickle-size" then
      Except.ok (Filter.pickleSize c.filter_min_size c.filter_max_size)
    else
      Except.error "AssertionError"

/-- An item as the filters measure it: its in-memory footprint and the byte length of
its serialized form, in bytes. -/
structure Item where
  objectSize : ℚ
  pickleSize : ℚ

/-- Modelled from the spec: `taps/data/filter.py` is not part of the sources; per the
spec, the Null filter always keeps, and the ObjectSize (resp. PickleSize) filter keeps
an item iff `min_bytes ≤ size ≤ max_bytes` with `size` the in-memory footprint
(resp. serialized byte length), bounds inclusive. -/
def filterKeeps : Filter → Item → Bool
  | Filter.nullFilter, _ => true
  | Filter.objectSize mn mx, it =>
      decide ((mn : ℚ) ≤ it.objectSize) && decide ((it.objectSize : WithTop ℚ) ≤ mx)
  | Filter.pickleSize mn mx, it =>
      decide ((mn : ℚ) ≤ it.pickleSize) && decide ((it.pickleSize : WithTop ℚ) ≤ mx)

/-- Which branch of `get_filter` a `filter_type` value selects: 0 the Null filter,
1 the ObjectSize filter, 2 the PickleSize filter, 3 the assertion failure. -/
def dispatchShape : Option String → Nat
  | none => 0
  | some t => if t = "object-size" then 1 else if t = "pickle-size" then 2 else 3

/-- The branch a `get_filter` result came from, numbered as in `dispatchShape`. -/
def filterShape : Except String Filter → Nat
  | Except.ok Filter.nullFilter => 0
  | Except.ok (Filter.objectSize _ _) => 1
  | Except.ok (Filter.pickleSize _ _) => 2
  | Except.error _ => 3

/-! ### The argument-surface builder -/

/-- One mutation `DataTransformerChoicesConfig.add_argument_group` performs on the
parser: adding the selector argument (`group.add_argument('--transformer', choices=...,
default=..., help=...)`), or delegating a registered configuration's own argument group
with a `required` flag (`config_type.add_argument_group(parser, argv=argv,
required=...)`). -/
inductive Action where
  | addSelector (flag : String) (choices : List String) (deflt : String) (help : String) : Action
  | addGroup (name : String) (required : Bool) : Action
deriving DecidableEq

/-- Whether an action adds the selector argument. -/
def isSelector : Action → Bool
  | Action.addSelector _ _ _ _ => true
  | Action.addGroup _ _ => false

/-- The `(name, required)` pairs of the per-configuration group additions, in order. -/
def requiredGroups (t : List Action) : List (String × Bool) :=
  t.filterMap fun a =>
    match a with
    | Action.addGroup n r => some (n, r)
    | Action.addSelector _ _ _ _ => none

/-- The pre-scan in `add_argument_group`:
`if argv is not None and '--executor' in argv: executor_type = argv[argv.index('--executor') + 1]`.
Indexing one past the end raises `IndexError`. -/
def scanSelected (argv : Option (List String)) : Except String (Option String) :=
  match argv with
  | none => Except.ok none
  | some a =>
    if a.contains "--executor" then
      match a[a.indexOf "--executor" + 1]? with
      | some v => Except.ok (some v)
      | none => Except.error "IndexError"
    else
      Except.ok none

/-- `DataTransformerChoicesConfig.add_argument_group`, as the ordered list of parser
mutations it performs together with the exception it raises, if any. The selector is
added first; the pre-scan then fixes `executor_type`; each registered configuration's
group is added with `required=(name == executor_type)`. -/
def add_argument_group (configs : Dict) (argv : Option (List String)) :
    List Action × Option String :=
  let selector := Action.addSelector "--transformer"
    (List.insertionSort (fun a b => a ≤ b) (configs.map Prod.fst)) "null" "executor to use"
  match scanSelected argv with
  | Except.error e => ([selector], some e)
  | Except.ok executorType =>
    (selector :: configs.map (fun p => Action.addGroup p.1 (decide (some p.1 = executorType))),
      none)

/-! ### Dictionary lemmas -/

theorem dictGet?_dictInsert {α : Type} (d : List (String × α)) (k : String) (v : α) :
    dictGet? (dictInsert d k v) k = some v := by
  induction d with
  | nil => simp [dictInsert, dictGet?]
  | cons p t ih =>
    by_cases h : p.1 = k
    · simp [dictInsert, dictGet?, h]
    · simp [dictInsert, dictGet?, h, ih]

theorem dictInsert_keys_of_mem {α : Type} (d : List (String × α)) (k : String) (v w : α)
    (h : dictGet? d k = some w) :
    (dictInsert d k v).map Prod.fst = d.map Prod.fst := by
  induction d with
  | nil => simp [dictGet?] at h
  | cons p t ih =>
    by_cases hk : p.1 = k
    · simp [dictInsert, hk]
    · simp [dictGet?, hk] at h
      simp [dictInsert, hk, ih h]

/-! ### Claim theorems -/

/-- C2: `FilterConfig.get_filter` raises `AssertionError` exactly when `filter_type` is
neither `None`, `'object-size'`, nor `'pickle-size'`; for every value of the declared
`Optional[Literal['object-size', 'pickle-size']]` enumeration the assertion branch is
not reached. -/
theorem get_filter_assertion_error_iff (c : FilterConfig) :
    (get_filter c = Except.error "AssertionError" ↔
      c.filter_type ≠ none ∧ c.filter_type ≠ some "object-size" ∧
        c.filter_type ≠ some "pickle-size")
    ∧ ∀ (t : Option FilterTypeLit) (mn : Int) (mx : WithTop ℚ),
        get_filter (FilterConfig.mk (Option.map litStr t) mn mx) ≠
          Except.error "AssertionError" := by
  constructor
  · obtain ⟨ft, mn, mx⟩ := c
    cases ft with
    | none => simp [get_filter]
    | some s =>
      by_cases h1 : s = "object-size"
      · simp [get_filter, h1]
      · by_cases h2 : s = "pickle-size"
        · simp [get_filter, h1, h2]
        · simp [get_filter, h1, h2]
  · intro t mn mx
    cases t with
    | none => simp [get_filter]
    | some l => cases l <;> simp [get_filter, litStr]

/-- C3: `get_transformer_config` on an unregistered name propagates a `KeyError` to the
caller; it does not return a default or `None`. -/
theorem get_transformer_config_keyerror (d : Dict) (name : String) (opts : Options)
    (h : dictGet? d name = none) :
    get_transformer_config d name opts = Except.error "KeyError" := by
  simp [get_transformer_config, h]

/-- Witness for C3: the empty registry has no binding for `'nonexistent'`, and looking it
up yields the `KeyError`. -/
theorem get_transformer_config_keyerror_witness :
    dictGet? ([] : Dict) "nonexistent" = none ∧
      get_transformer_config [] "nonexistent" [] = Except.error "KeyError" :=
  ⟨rfl, get_transformer_config_keyerror [] "nonexistent" [] rfl⟩

/-- C4: with `filter_type = None`, `get_filter` returns the Null filter — which keeps
every item — whatever `filter_min_size` and `filter_max_size` are. -/
theorem get_filter_none_null (mn : Int) (mx : WithTop ℚ) (it : Item) :
    get_filter (FilterConfig.mk none mn mx) = Except.ok Filter.nullFilter ∧
      filterKeeps Filter.nullFilter it = true :=
  ⟨rfl, rfl⟩

/-- C5: with `filter_type = 'object-size'` (resp. `'pickle-size'`), `get_filter` returns
the ObjectSize (resp. PickleSize) filter constructed with
`min_bytes = filter_min_size` and `max_bytes = filter_max_size`, and which branch is
taken is a function of `filter_type` alone. -/
theorem get_filter_size_dispatch (mn : Int) (mx : WithTop ℚ) (c : FilterConfig) :
    get_filter (FilterConfig.mk (some "object-size") mn mx) =
      Except.ok (Filter.objectSize mn mx)
    ∧ get_filter (FilterConfig.mk (some "pickle-size") mn mx) =
      Except.ok (Filter.pickleSize mn mx)
    ∧ filterShape (get_filter c) = dispatchShape c.filter_type := by
  refine ⟨by simp [get_filter], by simp [get_filter], ?_⟩
  obtain ⟨ft, mn', mx'⟩ := c
  cases ft with
  | none => simp [get_filter, filterShape, dispatchShape]
  | some s =>
    by_cases h1 : s = "object-size"
    · simp [get_filter, filterShape, dispatchShape, h1]
    · by_cases h2 : s = "pickle-size"
      · simp [get_filter, filterShape, dispatchShape, h1, h2]
      · simp [get_filter, filterShape, dispatchShape, h1, h2]

/-- C6: after `register(name=x)` is applied to a class `C`, the registry maps `x` to
`C`, the decorator hands `C` back unchanged, and `get_transformer_config(x, **options)`
constructs a `C` instance with exactly the forwarded options. -/
theorem register_then_get (d : Dict) (x : String) (C : ConfigType) (opts : Options) :
    dictGet? (register d x C).1 x = some C
    ∧ (register d x C).2 = C
    ∧ get_transformer_config (register d x C).1 x opts = Except.ok (C, opts) := by
  refine ⟨dictGet?_dictInsert d x C, rfl, ?_⟩
  simp [get_transformer_config, register, dictGet?_dictInsert]

/-- C7: re-registering a name that is already bound silently replaces the binding — the
key set is unchanged and a subsequent `get_transformer_config` constructs the newly
registered class, not the old one. -/
theorem register_replaces (d : Dict) (x : String) (Cold Cnew : ConfigType) (opts : Options)
    (h : dictGet? d x = some Cold) :
    get_transformer_config (register d x Cnew).1 x opts = Except.ok (Cnew, opts)
    ∧ (register d x Cnew).1.map Prod.fst = d.map Prod.fst := by
  constructor
  · simp [get_transformer_config, register, dictGet?_dictInsert]
  · exact dictInsert_keys_of_mem d x Cnew Cold h

/-- Witness for C7: `'x'` is bound to `'SomeConfig'`; re-registering it as
`'OtherConfig'` makes `get_transformer_config('x', field=1)` construct `'OtherConfig'`
while the key set stays `['x']`. -/
theorem register_replaces_witness :
    dictGet? [("x", "SomeConfig")] "x" = some "SomeConfig"
    ∧ (get_transformer_config (register [("x", "SomeConfig")] "x" "OtherConfig").1 "x"
          [("field", 1)] = Except.ok ("OtherConfig", [("field", 1)])
        ∧ (register [("x", "SomeConfig")] "x" "OtherConfig").1.map Prod.fst
          = [("x", "SomeConfig")].map Prod.fst) :=
  ⟨by decide,
    register_replaces [("x", "SomeConfig")] "x" "SomeConfig" "OtherConfig" [("field", 1)]
      (by decide)⟩

/-- C8: for every registry state and raw input, `add_argument_group` adds exactly one
selector argument, it is the first parser mutation, its flag is `--transformer`, its
default is `'null'`, and its choices are the registered names sorted (a sorted
permutation of the keys). -/
theorem selector_sorted_choices_default (configs : Dict) (argv : Option (List String)) :
    (add_argument_group configs argv).1.head?
      = some (Action.addSelector "--transformer"
          (List.insertionSort (fun a b => a ≤ b) (configs.map Prod.fst)) "null"
          "executor to use")
    ∧ ((add_argument_group configs argv).1.filter isSelector).length = 1
    ∧ List.Sorted (fun a b : String => a ≤ b)
        (List.insertionSort (fun a b => a ≤ b) (configs.map Prod.fst))
    ∧ List.Perm (List.insertionSort (fun a b => a ≤ b) (configs.map Prod.fst))
        (configs.map Prod.fst) := by
  refine ⟨?_, ?_, List.sorted_insertionSort _ _, List.perm_insertionSort _ _⟩
  · cases h : scanSelected argv <;> simp [add_argument_group, h]
  · cases h : scanSelected argv <;>
      simp [add_argument_group, h, isSelector, List.filter_map, Function.comp]

/-- C10: `get_registered` returns the registry's own dictionary (the reference, not a
copy): a caller-side insertion through the returned reference is observed by a
subsequent `get_transformer_config`, and the resulting state is exactly the state
`register` would have produced. -/
theorem get_registered_aliases (s : RegistryHeap) (k : String) (C : ConfigType)
    (opts : Options) :
    get_transformer_config_at (dictSetItemAt s (get_registered s) k C) k opts
      = Except.ok (C, opts)
    ∧ dictSetItemAt s (get_registered s) k C = registerAt s k C := by
  constructor
  · simp [get_transformer_config_at, dictSetItemAt, get_registered, get_transformer_config,
      dictGet?_dictInsert]
  · rfl

/-- C1 (divergence witness): with `foo` registered and raw input
`['--transformer', 'foo']`, every group — including `foo`'s — is added with
`required=False`, because the pre-scan looks for the token `'--executor'`, not the
`'--transformer'` selector the method itself defines. -/
theorem transformer_prescan_not_applied :
    requiredGroups (add_argument_group [("foo", "FooConfig"), ("null", "NullConfig")]
        (some ["--transformer", "foo"])).1
      = [("foo", false), ("null", false)]
    ∧ (add_argument_group [("foo", "FooConfig"), ("null", "NullConfig")]
        (some ["--transformer", "foo"])).2 = none := by decide

/-- C9 (divergence witness): with `foo` registered and raw input
`['--executor', 'foo']` — which contains no `'--transformer'` token — `foo`'s group is
nevertheless added with `required=True`, because the pre-scan matches the unrelated
`'--executor'` token. -/
theorem executor_token_marks_required :
    requiredGroups (add_argument_group [("foo", "FooConfig")]
        (some ["--executor", "foo"])).1
      = [("foo", true)]
    ∧ (add_argument_group [("foo", "FooConfig")] (some ["--executor", "foo"])).2
      = none := by decide

end Taps
